import Mathlib

set_option maxRecDepth 8000
set_option linter.unusedVariables false

namespace PragatiPath

/-- Python str.lower applied to a list of characters (ASCII case folding). -/
def lowerChars (l : List Char) : List Char := l.map Char.toLower

/-- Python whitespace characters recognized by str.strip. -/
def isPySpace (c : Char) : Bool :=
  c == ' ' || c == '\t' || c == '\n' || c == '\r' || c == '\x0b' || c == '\x0c'

/-- Python str.strip: drop leading and trailing whitespace. -/
def pyStrip (l : List Char) : List Char :=
  ((l.dropWhile isPySpace).reverse.dropWhile isPySpace).reverse

/-- Python str.split on a single newline separator: the empty string yields one
empty segment, and every newline starts a new segment. -/
def splitLines : List Char → List (List Char)
  | [] => [[]]
  | c :: cs =>
    if c == '\n' then [] :: splitLines cs
    else
      match splitLines cs with
      | [] => [[c]]
      | l :: ls => (c :: l) :: ls

/-- Does the second list start with the first (pattern) list. -/
def startsWithList : List Char → List Char → Bool
  | [], _ => true
  | _ :: _, [] => false
  | p :: ps, c :: cs => p == c && startsWithList ps cs

/-- Python substring containment, the in operator on str. -/
def containsSub (pat : List Char) : List Char → Bool
  | [] => startsWithList pat []
  | c :: cs => startsWithList pat (c :: cs) || containsSub pat cs

/-- Test used by the score parser on each line: the characters of the token
score occur in line.lower(). -/
def containsScoreCI (line : List Char) : Bool :=
  containsSub ['s', 'c', 'o', 'r', 'e'] (lowerChars line)

/-- Accumulator-based scanner behind digitRuns. -/
def digitRunsAux : List Char → List Char → List (List Char)
  | [], acc => if acc.isEmpty then [] else [acc.reverse]
  | c :: cs, acc =>
    if c.isDigit then digitRunsAux cs (c :: acc)
    else if acc.isEmpty then digitRunsAux cs []
    else acc.reverse :: digitRunsAux cs []

/-- Python re.findall with the decimal-digit-run pattern: the list of maximal
runs of characters 0-9, in order of occurrence. -/
def digitRuns (l : List Char) : List (List Char) := digitRunsAux l []

/-- Python int() applied to a run of decimal digits. -/
def digitsToNat (l : List Char) : Nat :=
  l.foldl (fun n c => 10 * n + (c.toNat - 48)) 0

/-- Python format specifier val:03d on a natural number: decimal digits,
left-padded with zeros to width 3. -/
def fmt3 (n : Nat) : String :=
  let s := Nat.repr n
  if s.length < 3 then String.mk (List.replicate (3 - s.length) '0') ++ s else s

/-- First loop of CivicValidator.strict3score: scan the lines in order and,
on the first line whose lowercase form contains score AND that contains at
least one digit run, return the integer value of the first run; a line that
mentions score but has no digits is skipped, not terminal. -/
def findScoreLineNum : List (List Char) → Option Nat
  | [] => none
  | l :: ls =>
    if containsScoreCI l then
      match digitRuns l with
      | r :: _ => some (digitsToNat r)
      | [] => findScoreLineNum ls
    else findScoreLineNum ls

/-- Second loop of CivicValidator.strict3score: first digit run of the first
line containing any digits. -/
def findAnyLineNum : List (List Char) → Option Nat
  | [] => none
  | l :: ls =>
    match digitRuns l with
    | r :: _ => some (digitsToNat r)
    | [] => findAnyLineNum ls

/-- Line decomposition used by strict3score: text.strip().split on newline. -/
def linesOf (text : String) : List (List Char) := splitLines (pyStrip text.data)

/-- CivicValidator.strict3score from src/issue_validator.py lines 182-199:
two line scans over the stripped reply, each returning the first matching
number clamped into 0-100 via max 0 (min 100 -), formatted 03d; fallback
literal 000. -/
def strict3score (text : String) : String :=
  match findScoreLineNum (linesOf text) with
  | some n => fmt3 (max 0 (min 100 n))
  | none =>
    match findAnyLineNum (linesOf text) with
    | some n => fmt3 (max 0 (min 100 n))
    | none => "000"

/-- Outcome of the single requests.post call to the scoring service, as seen
by get_civic_score_strict3: either the transport raised (any exception, with
its message), or an HTTP response arrived with a status code and, when the
body had the shape choices-0-message-content, that content string (none when
extracting the content raised). -/
inductive ScoreReply where
  | transportError (msg : String) : ScoreReply
  | httpResponse (status : Nat) (content : Option String) : ScoreReply

/-- CivicValidator.get_civic_score_strict3 from src/issue_validator.py lines
122-180, with the single remote round trip abstracted as a ScoreReply input.
The prompt is built from caption and description and sent out; the returned
value depends only on the reply: parse the content through strict3score on a
200 status, and fall back to 000 on a transport error, a non-200 status, or
a content-extraction failure. -/
def get_civic_score_strict3 (caption description : String) (reply : ScoreReply) : String :=
  match reply with
  | .transportError _ => "000"
  | .httpResponse status content =>
    if status == 200 then
      match content with
      | some text => strict3score text
      | none => "000"
    else "000"

/-- First digit run of a line, clamped into 0-100 and formatted 03d; the
literal 000 when the line has no digits. -/
def lineFirstNum3 (l : List Char) : String :=
  match digitRuns l with
  | r :: _ => fmt3 (max 0 (min 100 (digitsToNat r)))
  | [] => "000"

/-- Modelled from the spec: the four-step reference parser as claim C2 words
it. First pass: the first line containing score (case-insensitive) is
selected and its first digit run is returned clamped and padded; the steps
name no other exit from the first pass, so a selected line without digits
falls to the final fallback. Second pass, only when NO line matched score:
first digit run of the first line containing digits. Otherwise 000. -/
def specParseC2 (text : String) : String :=
  match (linesOf text).find? (fun l => containsScoreCI l) with
  | some l => lineFirstNum3 l
  | none =>
    match (linesOf text).find? (fun l => !(digitRuns l).isEmpty) with
    | some l => lineFirstNum3 l
    | none => "000"

/-- Modelled from the spec, amended per the code: the first pass selects the
first line that both contains score (case-insensitive) AND contains a digit
run; the second pass runs exactly when no score-mentioning line has digits. -/
def specParseC2Amended (text : String) : String :=
  match (linesOf text).find? (fun l => containsScoreCI l && !(digitRuns l).isEmpty) with
  | some l => lineFirstNum3 l
  | none =>
    match (linesOf text).find? (fun l => !(digitRuns l).isEmpty) with
    | some l => lineFirstNum3 l
    | none => "000"

/-- Decidable form of the ScoreCode contract: exactly three characters, all
decimal digits, and the encoded integer is at most 100. -/
def isScoreCode (s : String) : Bool :=
  s.length == 3 && s.data.all Char.isDigit && Nat.ble (digitsToNat s.data) 100

/-- Universe of Python values relevant to the captioning reply: strings,
integers, None, and dictionaries kept in insertion order. -/
inductive PyVal where
  | vstr (s : String) : PyVal
  | vint (n : Int) : PyVal
  | vnone : PyVal
  | vdict (entries : List (PyVal × PyVal)) : PyVal

/-- Python truthiness on the PyVal universe. -/
def pyTruthy : PyVal → Bool
  | .vstr s => !s.data.isEmpty
  | .vint n => !(n == 0)
  | .vnone => false
  | .vdict l => !l.isEmpty

/-- Opening curly bracket character, code point 123. -/
def lbraceC : Char := Char.ofNat 123

/-- Closing curly bracket character, code point 125. -/
def rbraceC : Char := Char.ofNat 125

/-- Single-quote character, code point 39. -/
def squoteC : Char := Char.ofNat 39

mutual

/-- Python repr on the PyVal universe (string escaping not modelled). -/
def pyRepr : PyVal → String
  | .vstr s => String.singleton squoteC ++ s ++ String.singleton squoteC
  | .vint n => Int.repr n
  | .vnone => "None"
  | .vdict l => String.singleton lbraceC ++ pyReprEntries l ++ String.singleton rbraceC

/-- Comma-separated key-colon-value items of a dictionary repr. -/
def pyReprEntries : List (PyVal × PyVal) → String
  | [] => ""
  | [(k, v)] => pyRepr k ++ ": " ++ pyRepr v
  | (k, v) :: e :: rest => pyRepr k ++ ": " ++ pyRepr v ++ ", " ++ pyReprEntries (e :: rest)

end

/-- Python str on the PyVal universe: identity on strings, repr elsewhere. -/
def pyStr : PyVal → String
  | .vstr s => s
  | .vint n => Int.repr n
  | .vnone => "None"
  | .vdict l => String.singleton lbraceC ++ pyReprEntries l ++ String.singleton rbraceC

/-- Shape of the captioning-service reply as inspected by _extract_caption:
a sequence (Python list or tuple) of values, or a scalar value. -/
inductive FlorenceReply where
  | seq (items : List PyVal) : FlorenceReply
  | scalar (v : PyVal) : FlorenceReply

/-- Raw caption text computed by the first half of _extract_caption: the
stringified first element of a nonempty sequence reply when truthy, the
stringified scalar reply when truthy, and the no-caption placeholder
otherwise (an empty sequence is falsy and stringifies through the scalar
branch to the placeholder as well). -/
def rawCaption : FlorenceReply → String
  | .seq (x :: _) => if pyTruthy x then pyStr x else "No caption generated"
  | .seq [] => "No caption generated"
  | .scalar v => if pyTruthy v then pyStr v else "No caption generated"

/-- Python startswith with a single-character argument. -/
def headIs (s : String) (c : Char) : Bool := s.data.head? == some c

/-- Python endswith with a single-character argument. -/
def lastIs (s : String) (c : Char) : Bool := s.data.getLast? == some c

/-- CivicValidator._extract_caption from src/issue_validator.py lines
104-120, with ast.literal_eval abstracted as the oracle input astP (none
models a raised parse error). When the raw caption is brace-delimited and
parses to a dictionary with at least one entry, the first value replaces the
caption and is returned whatever its type; an empty dictionary raises
IndexError inside the inner try so the caption is kept; a non-dictionary
parse keeps the caption; a parse error is swallowed. -/
def extract_caption (result : FlorenceReply) (astP : String → Option PyVal) : PyVal :=
  let caption := rawCaption result
  if headIs caption lbraceC && lastIs caption rbraceC then
    match astP caption with
    | some (.vdict ((_, v) :: _)) => v
    | some (.vdict []) => .vstr caption
    | some _ => .vstr caption
    | none => .vstr caption
  else .vstr caption

/-- CivicValidator.get_florence_caption from src/issue_validator.py lines
84-102: placeholders for an absent client and for a missing image file, then
the single remote call whose outcome is the predictResult input; an
exception raised by the call is caught and embedded in a placeholder. -/
def get_florence_caption (hasClient fileExists : Bool)
    (predictResult : Except String FlorenceReply)
    (astP : String → Option PyVal) : PyVal :=
  if !hasClient then .vstr "Caption generation unavailable"
  else if !fileExists then .vstr "Image file not found"
  else
    match predictResult with
    | .error e => .vstr ("Caption generation failed: " ++ e)
    | .ok result => extract_caption result astP

/-- Test whether a PyVal is a nonempty string. -/
def pyIsNonEmptyStr : PyVal → Bool
  | .vstr s => !s.data.isEmpty
  | _ => false

/-- Condition under which the dictionary-extraction path preserves the
nonempty-string caption contract: the first value of any dictionary the
literal parse can produce is itself a nonempty string. -/
def dictFirstValOk : PyVal → Bool
  | .vdict ((_, v) :: _) => pyIsNonEmptyStr v
  | _ => true

/-- Test whether a PyVal is a string. -/
def isPyStr : PyVal → Bool
  | .vstr _ => true
  | _ => false

/-- Extension allow-set of CivicValidator, src/issue_validator.py line 33. -/
def ALLOWED_EXTENSIONS : List String := ["png", "jpg", "jpeg", "gif", "webp"]

/-- Characters after the last dot: Python filename.rsplit with separator dot
and maxsplit 1, second component, defined when the list contains a dot. -/
def afterLastDot (l : List Char) : List Char :=
  (l.reverse.takeWhile (fun c => !(c == '.'))).reverse

/-- CivicValidator.allowed_file from src/issue_validator.py lines 58-61: an
empty filename is rejected; otherwise the filename must contain a dot and
the lower-cased text after the last dot must be in the allow-set. -/
def allowed_file (filename : String) : Bool :=
  if filename.data.isEmpty then false
  else filename.data.contains '.' &&
    ALLOWED_EXTENSIONS.contains (String.mk (lowerChars (afterLastDot filename.data)))

/-- Uploaded file handle as validate_image_file sees it. The decode field is
the outcome of PIL Image.open followed by verify on the content: dimensions
on success, the exception text on failure. The readFail field is the stream
position a failed decode leaves behind, since the code does not seek back on
the exception path. -/
structure Upload where
  filename : String
  decode : Except String (Nat × Nat)
  readFail : Nat

/-- CivicValidator.validate_image_file from src/issue_validator.py lines
63-82, with the read cursor of the upload threaded explicitly: the function
takes the cursor position on entry and returns the outcome pair together
with the cursor position on exit. Absent or falsy upload and bad extension
return before any seek; a failed decode raises after the first seek, leaving
the cursor wherever the failed read stopped, and is caught by the outer
except; the dimension checks run after seek calls that restore position 0. -/
def validate_image_file (file : Option Upload) (cursor : Nat) : (Bool × String) × Nat :=
  match file with
  | none => ((false, "No file provided"), cursor)
  | some f =>
    if !allowed_file f.filename then ((false, "Invalid file type."), cursor)
    else
      match f.decode with
      | .error e => ((false, "Invalid image file: " ++ e), f.readFail)
      | .ok wh =>
        if wh.1 < 100 || wh.2 < 100 then ((false, "Image too small."), 0)
        else if wh.1 > 4000 || wh.2 > 4000 then ((false, "Image too large."), 0)
        else ((true, "Valid image"), 0)

/-- Truthiness of the documented upload type: the module docstring pins the
input of validate_image_file as the Flask request upload, a werkzeug
FileStorage, whose bool conversion is bool(self.filename); so a present
upload with an empty filename is falsy. -/
def fileStorageTruthy (f : Upload) : Bool := !f.filename.data.isEmpty

/-- Entry point of validate_image_file for the documented FileStorage
input: the test at line 65, if not file, consults the truthiness of the
upload object, so a present but falsy upload (empty filename) takes the
absent-upload branch; a truthy upload proceeds through the remaining body,
which is validate_image_file past that test. -/
def validate_image_file_fs (file : Option Upload) (cursor : Nat) : (Bool × String) × Nat :=
  match file with
  | none => ((false, "No file provided"), cursor)
  | some f =>
    if !fileStorageTruthy f then ((false, "No file provided"), cursor)
    else validate_image_file (some f) cursor

theorem findScoreLineNum_eq_find (ls : List (List Char)) :
    findScoreLineNum ls =
      (ls.find? (fun l => containsScoreCI l && !(digitRuns l).isEmpty)).map
        (fun l => digitsToNat ((digitRuns l).headD [])) := by
  induction ls with
  | nil => rfl
  | cons l ls ih =>
    by_cases h : containsScoreCI l = true
    · cases hr : digitRuns l with
      | nil => simp [findScoreLineNum, List.find?, h, hr, ih]
      | cons r rs => simp [findScoreLineNum, List.find?, h, hr]
    · have hb : containsScoreCI l = false := by simpa using h
      simp [findScoreLineNum, List.find?, hb, ih]

theorem findAnyLineNum_eq_find (ls : List (List Char)) :
    findAnyLineNum ls =
      (ls.find? (fun l => !(digitRuns l).isEmpty)).map
        (fun l => digitsToNat ((digitRuns l).headD [])) := by
  induction ls with
  | nil => rfl
  | cons l ls ih =>
    cases hr : digitRuns l with
    | nil => simp [findAnyLineNum, List.find?, hr, ih]
    | cons r rs => simp [findAnyLineNum, List.find?, hr]

theorem fmt3_scoreCode_small : ∀ m : Fin 101, isScoreCode (fmt3 m.val) = true := by decide

theorem clamp_fmt3_scoreCode (n : Nat) :
    isScoreCode (fmt3 (max 0 (min 100 n))) = true := by
  rw [Nat.max_eq_right (Nat.zero_le _)]
  exact fmt3_scoreCode_small ⟨min 100 n, Nat.lt_succ_of_le (Nat.min_le_left _ _)⟩

theorem strict3score_scoreCode (text : String) :
    isScoreCode (strict3score text) = true := by
  unfold strict3score
  cases findScoreLineNum (linesOf text) with
  | some n => exact clamp_fmt3_scoreCode n
  | none =>
    cases findAnyLineNum (linesOf text) with
    | some n => exact clamp_fmt3_scoreCode n
    | none => decide

/-- Claim C1: for every pair of input strings and every scoring-service
reply, get_civic_score_strict3 returns a string of exactly 3 ASCII digits
whose integer value lies in the interval 0 to 100. -/
theorem C1_score_always_scorecode (caption description : String) (reply : ScoreReply) :
    isScoreCode (get_civic_score_strict3 caption description reply) = true := by
  unfold get_civic_score_strict3
  cases reply with
  | transportError m => exact (by decide : isScoreCode "000" = true)
  | httpResponse status content =>
    by_cases h : (status == 200) = true
    · cases content with
      | some t => simpa [h] using strict3score_scoreCode t
      | none => simp [h]; decide
    · have hb : (status == 200) = false := by simpa using h
      simp [hb]; decide

/-- Claim C2 counterexample: on the reply consisting of a line containing
score with no digits followed by a line 42, the code returns 042 while the
reference parser of the claim, which never revisits the first pass after
selecting the first score-mentioning line and forbids the second pass when
some line matched score, yields the fallback 000. -/
theorem C2_counterexample :
    strict3score ("score\n42") = "042" ∧ specParseC2 ("score\n42") = "000" ∧
      ¬ strict3score ("score\n42") = specParseC2 ("score\n42") := by decide

/-- Claim C2 amended: strict3score equals the reference parser once its
first pass is read as selecting the first line that both mentions score
(case-insensitively) and contains a digit run, the second pass running
exactly when no score-mentioning line has digits. -/
theorem C2_amended_parser_equiv (text : String) :
    strict3score text = specParseC2Amended text := by
  unfold strict3score specParseC2Amended
  rw [findScoreLineNum_eq_find, findAnyLineNum_eq_find]
  cases h1 : (linesOf text).find? (fun l => containsScoreCI l && !(digitRuns l).isEmpty) with
  | some l =>
    have hp := List.find?_some h1
    cases hr : digitRuns l with
    | nil => rw [hr] at hp; simp at hp
    | cons r rs => simp [lineFirstNum3, hr]
  | none =>
    simp only [Option.map_none]
    cases h2 : (linesOf text).find? (fun l => !(digitRuns l).isEmpty) with
    | some l =>
      have hp := List.find?_some h2
      cases hr : digitRuns l with
      | nil => rw [hr] at hp; simp at hp
      | cons r rs => simp [lineFirstNum3, hr]
    | none => simp

/-- Claim C5: when the scoring request fails at the transport layer, or the
service responds with any non-200 status, get_civic_score_strict3 returns
exactly the string 000; the embedding passes a single reply because the code
issues a single requests.post with no retry loop. -/
theorem C5_fallback_000 :
    (∀ c d m, get_civic_score_strict3 c d (.transportError m) = "000") ∧
    (∀ c d status content, status ≠ 200 →
      get_civic_score_strict3 c d (.httpResponse status content) = "000") := by
  constructor
  · intro c d m; rfl
  · intro c d status content h
    have hb : (status == 200) = false := by simpa using h
    unfold get_civic_score_strict3
    simp [hb]

/-- Claim C5 witness: a 404 reply with a well-formed body still yields 000. -/
theorem C5_witness :
    get_civic_score_strict3 ("c") ("d") (.httpResponse 404 (some ("Score: 85"))) = "000" :=
  C5_fallback_000.2 ("c") ("d") 404 (some ("Score: 85")) (by decide)

/-- Claim C9: the first pass of strict3score skips a score-mentioning line
without digits and keeps scanning; the second pass runs exactly when no
score-mentioning line in the reply has digits, and may then pick up digits
from a line that precedes the score line (final conjunct: the reply whose
first line is 7 things and whose second line mentions score without digits
parses to 007). -/
theorem C9_first_pass_continues :
    (∀ l ls, containsScoreCI l = true → digitRuns l = [] →
      findScoreLineNum (l :: ls) = findScoreLineNum ls) ∧
    (∀ text, (∀ l ∈ linesOf text, containsScoreCI l = true → digitRuns l = []) →
      strict3score text =
        match findAnyLineNum (linesOf text) with
        | some n => fmt3 (max 0 (min 100 n))
        | none => "000") ∧
    strict3score ("7 things\nscore none") = "007" := by
  refine ⟨?_, ?_, by decide⟩
  · intro l ls hc hr
    simp [findScoreLineNum, hc, hr]
  · intro text h
    have hnone : findScoreLineNum (linesOf text) = none := by
      rw [findScoreLineNum_eq_find]
      have hfind : (linesOf text).find?
          (fun l => containsScoreCI l && !(digitRuns l).isEmpty) = none := by
        rw [List.find?_eq_none]
        intro x hx
        by_cases hcs : containsScoreCI x = true
        · simp [hcs, h x hx hcs]
        · have : containsScoreCI x = false := by simpa using hcs
          simp [this]
      rw [hfind]; rfl
    unfold strict3score
    rw [hnone]

/-- Claim C9 witness: instances of the two conditional conjuncts at concrete
lines and at a concrete reply text. -/
theorem C9_witness :
    (findScoreLineNum ([['s', 'c', 'o', 'r', 'e'], ['4', '2']]) =
      findScoreLineNum ([['4', '2']])) ∧
    (strict3score ("score here\n42") =
      match findAnyLineNum (linesOf ("score here\n42")) with
      | some n => fmt3 (max 0 (min 100 n))
      | none => "000") :=
  ⟨C9_first_pass_continues.1 (['s', 'c', 'o', 'r', 'e']) ([['4', '2']])
      (by decide) (by decide),
   C9_first_pass_continues.2.1 ("score here\n42") (by decide)⟩

theorem toDigits_length_pos (b n : Nat) : 0 < (Nat.toDigits b n).length := by
  simp only [Nat.toDigits, Nat.toDigitsCore]
  by_cases h : n / b = 0
  · simp [h]
  · simp only [h, if_false, Nat.toDigitsCore_lens_eq]
    omega

theorem nat_repr_data_ne_nil (m : Nat) : (Nat.repr m).data ≠ [] := by
  have h := toDigits_length_pos 10 m
  intro hc
  have : (Nat.repr m).data = Nat.toDigits 10 m := rfl
  rw [this] at hc
  rw [hc] at h
  simp at h

theorem int_repr_data_ne_nil (n : Int) : (Int.repr n).data ≠ [] := by
  cases n with
  | ofNat m => exact nat_repr_data_ne_nil m
  | negSucc m =>
    intro hc
    simp only [Int.repr, String.data_append] at hc
    exact absurd hc (by simp)

theorem pyStr_truthy_ne_nil (v : PyVal) (h : pyTruthy v = true) : (pyStr v).data ≠ [] := by
  cases v with
  | vstr s => simpa [pyTruthy] using h
  | vint n => exact int_repr_data_ne_nil n
  | vnone => simp [pyTruthy] at h
  | vdict l => simp [pyStr, String.data_append, String.singleton]

theorem rawCaption_ne_nil (r : FlorenceReply) : (rawCaption r).data ≠ [] := by
  have hplaceholder : ("No caption generated" : String).data ≠ [] := by decide
  cases r with
  | seq items =>
    cases items with
    | nil => exact hplaceholder
    | cons x xs =>
      by_cases h : pyTruthy x = true
      · simpa [rawCaption, h] using pyStr_truthy_ne_nil x h
      · have hb : pyTruthy x = false := by simpa using h
        simp only [rawCaption, hb, Bool.false_eq_true, if_false]
        exact hplaceholder
  | scalar v =>
    by_cases h : pyTruthy v = true
    · simpa [rawCaption, h] using pyStr_truthy_ne_nil v h
    · have hb : pyTruthy v = false := by simpa using h
      simp only [rawCaption, hb, Bool.false_eq_true, if_false]
      exact hplaceholder

theorem pyIsNonEmptyStr_vstr (s : String) (h : s.data ≠ []) :
    pyIsNonEmptyStr (.vstr s) = true := by
  cases hd : s.data with
  | nil => exact absurd hd h
  | cons a t => simp [pyIsNonEmptyStr, hd]

theorem extract_caption_nonempty (r : FlorenceReply) (astP : String → Option PyVal)
    (hora : ∀ s v, astP s = some v → dictFirstValOk v = true) :
    pyIsNonEmptyStr (extract_caption r astP) = true := by
  have hcap := pyIsNonEmptyStr_vstr (rawCaption r) (rawCaption_ne_nil r)
  unfold extract_caption
  by_cases hbr : (headIs (rawCaption r) lbraceC && lastIs (rawCaption r) rbraceC) = true
  · simp only [hbr, if_true]
    cases hast : astP (rawCaption r) with
    | none => exact hcap
    | some v =>
      have hok := hora _ _ hast
      cases v with
      | vstr s => exact hcap
      | vint n => exact hcap
      | vnone => exact hcap
      | vdict entries =>
        cases entries with
        | nil => exact hcap
        | cons p rest => simpa [dictFirstValOk] using hok
  · have hb : (headIs (rawCaption r) lbraceC && lastIs (rawCaption r) rbraceC) = false := by
      simpa using hbr
    simp only [hb, Bool.false_eq_true, if_false]
    exact hcap

/-- Claim C6 counterexample: when the captioning service replies with the
brace-delimited text mapping the key a to the empty string, the parsed
first value is the empty string and get_florence_caption returns it, so the
returned caption is not a non-empty string. -/
theorem C6_counterexample :
    pyIsNonEmptyStr (get_florence_caption true true
      (.ok (.scalar (.vstr ("\x7b\x22a\x22: \x22\x22\x7d"))))
      (fun s => if s == "\x7b\x22a\x22: \x22\x22\x7d" then
        some (.vdict [(.vstr ("a"), .vstr (""))]) else none)) = false := by decide

/-- Claim C6 amended: on every caption path the returned value is a
non-empty string, provided that whenever the reply text parses as a
mapping, the first value of that mapping is itself a non-empty string; the
code substitutes the first value without further checks, so a mapping with
an empty-string (or non-string) first value escapes as-is. -/
theorem C6_amended_caption_nonempty (hasClient fileExists : Bool)
    (predictResult : Except String FlorenceReply)
    (astP : String → Option PyVal)
    (hora : ∀ s v, astP s = some v → dictFirstValOk v = true) :
    pyIsNonEmptyStr (get_florence_caption hasClient fileExists predictResult astP) = true := by
  unfold get_florence_caption
  cases hasClient with
  | false =>
    exact (by decide : pyIsNonEmptyStr (.vstr "Caption generation unavailable") = true)
  | true =>
    cases fileExists with
    | false =>
      exact (by decide : pyIsNonEmptyStr (.vstr "Image file not found") = true)
    | true =>
      cases predictResult with
      | error e =>
        simp only [Bool.not_true, Bool.false_eq_true, if_false]
        apply pyIsNonEmptyStr_vstr
        simp [String.data_append]
      | ok r =>
        simpa using extract_caption_nonempty r astP hora

/-- Claim C6 witness: with a parse oracle that never returns a mapping, the
caption for a plain successful reply is a non-empty string. -/
theorem C6_witness :
    pyIsNonEmptyStr (get_florence_caption true true
      (.ok (.seq [.vstr ("Pothole on street")])) (fun _ => none)) = true :=
  C6_amended_caption_nonempty true true (.ok (.seq [.vstr ("Pothole on street")]))
    (fun _ => none) (fun s v h => by simp at h)

/-- Claim C7: when the raw caption starts with an opening brace and ends
with a closing brace, _extract_caption consults the literal parse; a parse
yielding a mapping with at least one entry replaces the caption with the
first value of the mapping, and a raised parse error is silently ignored
with the original text returned unchanged. -/
theorem C7_dict_extraction :
    (∀ (r : FlorenceReply) (astP : String → Option PyVal) (k v : PyVal)
        (rest : List (PyVal × PyVal)),
      (headIs (rawCaption r) lbraceC && lastIs (rawCaption r) rbraceC) = true →
      astP (rawCaption r) = some (.vdict ((k, v) :: rest)) →
      extract_caption r astP = v) ∧
    (∀ (r : FlorenceReply) (astP : String → Option PyVal),
      (headIs (rawCaption r) lbraceC && lastIs (rawCaption r) rbraceC) = true →
      astP (rawCaption r) = none →
      extract_caption r astP = .vstr (rawCaption r)) := by
  constructor
  · intro r astP k v rest hbr hast
    unfold extract_caption
    simp [hbr, hast]
  · intro r astP hbr hast
    unfold extract_caption
    simp [hbr, hast]

/-- Claim C7 witness: the reply text that serializes the mapping from the
key caption to the text Pothole on street is replaced by that first value. -/
theorem C7_witness :
    extract_caption (.scalar (.vstr ("\x7b\x22caption\x22: \x22Pothole on street\x22\x7d")))
      (fun s => if s == "\x7b\x22caption\x22: \x22Pothole on street\x22\x7d" then
        some (.vdict [(.vstr ("caption"), .vstr ("Pothole on street"))]) else none) =
      .vstr ("Pothole on street") :=
  C7_dict_extraction.1 (.scalar (.vstr ("\x7b\x22caption\x22: \x22Pothole on street\x22\x7d")))
    (fun s => if s == "\x7b\x22caption\x22: \x22Pothole on street\x22\x7d" then
      some (.vdict [(.vstr ("caption"), .vstr ("Pothole on street"))]) else none)
    (.vstr ("caption")) (.vstr ("Pothole on street")) [] (by decide) (by rfl)

/-- Claim C3: validate_image_file applies its rules in order with
short-circuiting: absent upload, disallowed extension (regardless of the
content, hence before any decode), failed decode with the error wrapped,
dimension below 100, dimension above 4000, and the valid outcome. -/
theorem C3_image_gate_rules :
    (∀ cursor, validate_image_file none cursor = ((false, "No file provided"), cursor)) ∧
    (∀ (f : Upload) (cursor : Nat), allowed_file f.filename = false →
      validate_image_file (some f) cursor = ((false, "Invalid file type."), cursor)) ∧
    (∀ (f : Upload) (cursor : Nat) (e : String), allowed_file f.filename = true →
      f.decode = .error e →
      validate_image_file (some f) cursor = ((false, "Invalid image file: " ++ e), f.readFail)) ∧
    (∀ (f : Upload) (cursor w h : Nat), allowed_file f.filename = true →
      f.decode = .ok (w, h) → (w < 100 ∨ h < 100) →
      validate_image_file (some f) cursor = ((false, "Image too small."), 0)) ∧
    (∀ (f : Upload) (cursor w h : Nat), allowed_file f.filename = true →
      f.decode = .ok (w, h) → 100 ≤ w → 100 ≤ h → (4000 < w ∨ 4000 < h) →
      validate_image_file (some f) cursor = ((false, "Image too large."), 0)) ∧
    (∀ (f : Upload) (cursor w h : Nat), allowed_file f.filename = true →
      f.decode = .ok (w, h) → 100 ≤ w → 100 ≤ h → w ≤ 4000 → h ≤ 4000 →
      validate_image_file (some f) cursor = ((true, "Valid image"), 0)) := by
  refine ⟨fun cursor => rfl, ?_, ?_, ?_, ?_, ?_⟩
  · intro f cursor ha
    simp [validate_image_file, ha]
  · intro f cursor e ha hd
    simp [validate_image_file, ha, hd]
  · intro f cursor w h ha hd hwh
    have c1 : (decide (w < 100) || decide (h < 100)) = true := by
      rcases hwh with h' | h' <;> simp [h']
    simp [validate_image_file, ha, hd, c1]
  · intro f cursor w h ha hd hw1 hh1 hwh
    have c1 : (decide (w < 100) || decide (h < 100)) = false := by
      simp only [Bool.or_eq_false_iff, decide_eq_false_iff_not]
      omega
    have c2 : (decide (w > 4000) || decide (h > 4000)) = true := by
      rcases hwh with h' | h' <;> simp [h']
    simp [validate_image_file, ha, hd, c1, c2]
  · intro f cursor w h ha hd hw1 hh1 hw2 hh2
    have c1 : (decide (w < 100) || decide (h < 100)) = false := by
      simp only [Bool.or_eq_false_iff, decide_eq_false_iff_not]
      omega
    have c2 : (decide (w > 4000) || decide (h > 4000)) = false := by
      simp only [Bool.or_eq_false_iff, decide_eq_false_iff_not]
      omega
    simp [validate_image_file, ha, hd, c1, c2]

/-- Claim C3 witness: one concrete upload per rule. -/
theorem C3_witness :
    validate_image_file none 5 = ((false, "No file provided"), 5) ∧
    validate_image_file (some ⟨"a.txt", .ok (500, 500), 0⟩) 1 =
      ((false, "Invalid file type."), 1) ∧
    validate_image_file (some ⟨"a.png", .error ("bad header"), 4⟩) 0 =
      ((false, "Invalid image file: " ++ ("bad header")), 4) ∧
    validate_image_file (some ⟨"a.png", .ok (50, 500), 0⟩) 0 =
      ((false, "Image too small."), 0) ∧
    validate_image_file (some ⟨"a.png", .ok (5000, 500), 0⟩) 0 =
      ((false, "Image too large."), 0) ∧
    validate_image_file (some ⟨"a.png", .ok (500, 500), 0⟩) 0 =
      ((true, "Valid image"), 0) :=
  ⟨C3_image_gate_rules.1 5,
   C3_image_gate_rules.2.1 (⟨"a.txt", .ok (500, 500), 0⟩) 1 (by decide),
   C3_image_gate_rules.2.2.1 (⟨"a.png", .error ("bad header"), 4⟩) 0 ("bad header")
     (by decide) (by rfl),
   C3_image_gate_rules.2.2.2.1 (⟨"a.png", .ok (50, 500), 0⟩) 0 50 500
     (by decide) (by rfl) (Or.inl (by decide)),
   C3_image_gate_rules.2.2.2.2.1 (⟨"a.png", .ok (5000, 500), 0⟩) 0 5000 500
     (by decide) (by rfl) (by decide) (by decide) (Or.inl (by decide)),
   C3_image_gate_rules.2.2.2.2.2 (⟨"a.png", .ok (500, 500), 0⟩) 0 500 500
     (by decide) (by rfl) (by decide) (by decide) (by decide) (by decide)⟩

/-- Claim C8 counterexample: an upload with an allowed extension whose
decode fails after reading 7 bytes is returned with the cursor at 7, not at
0, so not every return path after the extension check leaves the file at
the start. -/
theorem C8_counterexample :
    (validate_image_file (some ⟨"a.png", .error ("broken"), 7⟩) 0).2 = 7 ∧
    ¬ (validate_image_file (some ⟨"a.png", .error ("broken"), 7⟩) 0).2 = 0 := by decide

/-- Claim C8 amended: on every return path following a successful integrity
check (too small, too large, valid) the cursor is restored to 0; on the
decode-failure path the code performs no restoring seek and the cursor
stays wherever the failed read left it. -/
theorem C8_amended_cursor_reset :
    (∀ (f : Upload) (cursor : Nat) (wh : Nat × Nat),
      allowed_file f.filename = true → f.decode = .ok wh →
      (validate_image_file (some f) cursor).2 = 0) ∧
    (∀ (f : Upload) (cursor : Nat) (e : String),
      allowed_file f.filename = true → f.decode = .error e →
      (validate_image_file (some f) cursor).2 = f.readFail) := by
  constructor
  · intro f cursor wh ha hd
    simp only [validate_image_file, ha, hd, Bool.not_true, Bool.false_eq_true, if_false]
    by_cases c1 : (decide (wh.1 < 100) || decide (wh.2 < 100)) = true
    · simp [c1]
    · have c1f : (decide (wh.1 < 100) || decide (wh.2 < 100)) = false := by simpa using c1
      by_cases c2 : (decide (wh.1 > 4000) || decide (wh.2 > 4000)) = true
      · simp [c1f, c2]
      · have c2f : (decide (wh.1 > 4000) || decide (wh.2 > 4000)) = false := by simpa using c2
        simp [c1f, c2f]
  · intro f cursor e ha hd
    simp [validate_image_file, ha, hd]

/-- Claim C8 witness: a successfully decoded upload entered at cursor 9
exits at cursor 0, and a failed decode that stopped at byte 5 exits at 5. -/
theorem C8_witness :
    (validate_image_file (some ⟨"a.png", .ok (500, 500), 3⟩) 9).2 = 0 ∧
    (validate_image_file (some ⟨"b.png", .error ("x"), 5⟩) 9).2 = 5 :=
  ⟨C8_amended_cursor_reset.1 (⟨"a.png", .ok (500, 500), 3⟩) 9 (500, 500)
     (by decide) (by rfl),
   C8_amended_cursor_reset.2 (⟨"b.png", .error ("x"), 5⟩) 9 ("x")
     (by decide) (by rfl)⟩

/-- Claim C10 counterexample: for the documented FileStorage input, an
upload present with an empty filename is falsy, so the test if not file
takes the absent-upload branch and validate_image_file answers No file
provided, not Invalid file type. -/
theorem C10_counterexample :
    validate_image_file_fs (some ⟨"", .ok (500, 500), 0⟩) 3 =
      ((false, "No file provided"), 3) ∧
    ¬ validate_image_file_fs (some ⟨"", .ok (500, 500), 0⟩) 3 =
      ((false, "Invalid file type."), 3) := by decide

/-- Claim C10 amended: allowed_file judges only the lower-cased substring
after the last dot and rejects the dotless and the empty filename; however,
for the documented FileStorage input an upload whose filename is the empty
string is falsy and is treated exactly like an absent upload, yielding No
file provided rather than Invalid file type. -/
theorem C10_amended_last_dot :
    allowed_file ("photo.png.txt") = false ∧
    allowed_file ("photo.txt.PNG") = true ∧
    allowed_file ("") = false ∧
    (∀ (f : Upload) (cursor : Nat), f.filename = "" →
      validate_image_file_fs (some f) cursor = ((false, "No file provided"), cursor)) ∧
    (∀ (name : String), name.data.isEmpty = false →
      allowed_file name = (name.data.contains '.' &&
        ALLOWED_EXTENSIONS.contains (String.mk (lowerChars (afterLastDot name.data))))) := by
  refine ⟨by decide, by decide, by decide, ?_, ?_⟩
  · intro f cursor h
    have ht : fileStorageTruthy f = false := by
      simp [fileStorageTruthy, h]
    simp [validate_image_file_fs, ht]
  · intro name h
    simp [allowed_file, h]

/-- Claim C10 witness: a FileStorage upload carrying the empty filename is
reported as an absent upload with the cursor untouched, and a concrete
filename is judged by its final extension alone. -/
theorem C10_amended_witness :
    validate_image_file_fs (some ⟨"", .ok (500, 500), 0⟩) 7 =
      ((false, "No file provided"), 7) ∧
    allowed_file ("photo.txt.PNG") = (("photo.txt.PNG").data.contains '.' &&
      ALLOWED_EXTENSIONS.contains
        (String.mk (lowerChars (afterLastDot ("photo.txt.PNG").data)))) :=
  ⟨C10_amended_last_dot.2.2.2.1 (⟨"", .ok (500, 500), 0⟩) 7 (by rfl),
   C10_amended_last_dot.2.2.2.2 ("photo.txt.PNG") (by decide)⟩

theorem extract_caption_isPyStr (r : FlorenceReply) (astP : String → Option PyVal)
    (h : ∀ s k v rest, ¬ astP s = some (.vdict ((k, v) :: rest))) :
    isPyStr (extract_caption r astP) = true := by
  unfold extract_caption
  by_cases hbr : (headIs (rawCaption r) lbraceC && lastIs (rawCaption r) rbraceC) = true
  · simp only [hbr, if_true]
    cases hast : astP (rawCaption r) with
    | none => rfl
    | some v =>
      cases v with
      | vstr s => rfl
      | vint n => rfl
      | vnone => rfl
      | vdict entries =>
        cases entries with
        | nil => rfl
        | cons p rest =>
          cases p with
          | mk k v => exact absurd hast (h _ k v rest)
  · have hb : (headIs (rawCaption r) lbraceC && lastIs (rawCaption r) rbraceC) = false := by
      simpa using hbr
    simp only [hb, Bool.false_eq_true, if_false]
    rfl

/-- Claim C4 counterexample: when the captioning reply is the
brace-delimited text mapping the key a to None, the parsed first value None
is returned, so get_florence_caption does not return a string on every
input. -/
theorem C4_counterexample :
    isPyStr (get_florence_caption true true
      (.ok (.scalar (.vstr ("\x7b\x22a\x22: None\x7d"))))
      (fun s => if s == "\x7b\x22a\x22: None\x7d" then
        some (.vdict [(.vstr ("a"), .vnone)]) else none)) = false := by decide

/-- Claim C4 amended: no stage propagates an exception; every internal
failure is converted into the designated fallback (the invalid outcome with
the error text embedded, the placeholder caption, or the score 000), and
get_florence_caption returns a string on every path except the
mapping-extraction path, which returns the first value of the parsed
mapping whatever its type. -/
theorem C4_amended_stage_totality :
    (∀ (f : Upload) (cursor : Nat) (e : String), allowed_file f.filename = true →
      f.decode = .error e →
      (validate_image_file (some f) cursor).1 = (false, "Invalid image file: " ++ e)) ∧
    (∀ (e : String) (astP : String → Option PyVal),
      get_florence_caption true true (.error e) astP =
        .vstr ("Caption generation failed: " ++ e)) ∧
    (∀ c d m, get_civic_score_strict3 c d (.transportError m) = "000") ∧
    (∀ c d st, get_civic_score_strict3 c d (.httpResponse st none) = "000") ∧
    (∀ (hasClient fileExists : Bool) (predictResult : Except String FlorenceReply)
        (astP : String → Option PyVal),
      (∀ s k v rest, ¬ astP s = some (.vdict ((k, v) :: rest))) →
      isPyStr (get_florence_caption hasClient fileExists predictResult astP) = true) := by
  refine ⟨?_, fun e astP => rfl, fun c d m => rfl, ?_, ?_⟩
  · intro f cursor e ha hd
    simp [validate_image_file, ha, hd]
  · intro c d st
    unfold get_civic_score_strict3
    by_cases h : (st == 200) = true
    · simp [h]
    · have hb : (st == 200) = false := by simpa using h
      simp [hb]
  · intro hasClient fileExists predictResult astP h
    unfold get_florence_caption
    cases hasClient with
    | false => rfl
    | true =>
      cases fileExists with
      | false => rfl
      | true =>
        cases predictResult with
        | error e => rfl
        | ok r => simpa using extract_caption_isPyStr r astP h

/-- Claim C4 witness: each fallback conversion evaluated at one concrete
input. -/
theorem C4_witness :
    (validate_image_file (some ⟨"a.png", .error ("oops"), 2⟩) 0).1 =
      (false, "Invalid image file: " ++ ("oops")) ∧
    get_florence_caption true true (.error ("down")) (fun _ => none) =
      .vstr ("Caption generation failed: " ++ ("down")) ∧
    get_civic_score_strict3 ("a") ("b") (.transportError ("t")) = "000" ∧
    get_civic_score_strict3 ("a") ("b") (.httpResponse 200 none) = "000" ∧
    isPyStr (get_florence_caption true true (.ok (.seq [.vstr ("x")]))
      (fun _ => none)) = true :=
  ⟨C4_amended_stage_totality.1 (⟨"a.png", .error ("oops"), 2⟩) 0 ("oops")
     (by decide) (by rfl),
   C4_amended_stage_totality.2.1 ("down") (fun _ => none),
   C4_amended_stage_totality.2.2.1 ("a") ("b") ("t"),
   C4_amended_stage_totality.2.2.2.1 ("a") ("b") 200,
   C4_amended_stage_totality.2.2.2.2 true true (.ok (.seq [.vstr ("x")]))
     (fun _ => none) (fun s k v rest hc => by simp at hc)⟩

end PragatiPath
